/-
Verification of the androidtv-remote-cli protocol engine.

This file gives a shallow embedding, in Lean 4, of the protocol engine of the
androidtv-remote-cli repository: the pairing session (PairingManager), the two
message codecs (PairingMessageManager, RemoteMessageManager), the certificate
generator (CertificateGenerator), and the remote channel's reconnection policy
(RemoteManager).  Pure functions of the source become Lean functions; the
event-driven pairing session becomes an explicit step function on a state
record; JavaScript numbers that can be NaN or undefined are modelled by an
explicit inductive type.  External library primitives (SHA-256, protobuf
schema validation, protobuf encoding, TLS, the system clock, the random byte
source) are taken as explicit function parameters or recorded symbolically, so
that theorems quantify over their behaviour rather than assuming it.
-/
import Mathlib

namespace AndroidTVRemote

/-- A JavaScript number-or-undefined value as it appears in the pairing code
paths: `undef` models `undefined` (e.g. `array[0]` of an empty array), `nan`
models `NaN` (e.g. `parseInt` of a non-digit string), and `num n` models an
ordinary (integral) number. -/
inductive JSNum where
  | undef
  | nan
  | num (n : Int)
deriving DecidableEq, Repr

/-- JavaScript strict equality `===` restricted to the values of `JSNum`:
`undefined === undefined` is true, `NaN === NaN` is false, and two numbers are
strictly equal exactly when they are the same number. -/
def jsStrictEq : JSNum → JSNum → Bool
  | .undef, .undef => true
  | .num a, .num b => a == b
  | _, _ => false

/-- Value of a hexadecimal digit character (`0`-`9`, `a`-`f`, `A`-`F`),
or `none` for any other character. -/
def hexVal? (c : Char) : Option Nat :=
  if 48 ≤ c.toNat ∧ c.toNat ≤ 57 then some (c.toNat - 48)
  else if 97 ≤ c.toNat ∧ c.toNat ≤ 102 then some (c.toNat - 97 + 10)
  else if 65 ≤ c.toNat ∧ c.toNat ≤ 70 then some (c.toNat - 65 + 10)
  else none

/-- JavaScript `parseInt(s, 16)` for the short strings that occur in this code
base (two-character substrings of hexadecimal strings): the longest prefix of
hexadecimal digits is parsed, and an empty prefix yields `NaN`, modelled as
`none`.  (The `0x`-prefix, sign and whitespace handling of full `parseInt` is
irrelevant here: every call site feeds substrings of strings that are already
hexadecimal.) -/
def jsParseIntHex (cs : List Char) : Option Nat :=
  let ds := cs.takeWhile (fun c => (hexVal? c).isSome)
  if ds.isEmpty then none
  else some (ds.foldl (fun a c => 16 * a + ((hexVal? c).getD 0)) 0)

/-- The JavaScript expression `-(~byte & 0xff) - 1` from
`PairingManager.hexStringToBytes`, evaluated with JavaScript 32-bit bitwise
semantics on a non-negative integral `byte` (ToInt32, bitwise NOT, mask with
`0xff`, negate, subtract one). -/
def jsNegAdjust (b : Nat) : Int :=
  -(Int.ofNat ((2 ^ 32 - 1 - b % 2 ^ 32) % 256)) - 1

/-- One iteration of the `PairingManager.hexStringToBytes` loop body: parse a
(up to two character) substring as hexadecimal and convert values above 127 to
their two's-complement signed byte value. -/
def decodeHexPair (cs : List Char) : JSNum :=
  match jsParseIntHex cs with
  | none => .nan
  | some b => .num (if b > 127 then jsNegAdjust b else (b : Int))

/-- Embedding of `PairingManager.hexStringToBytes(q)`: walk the string two
characters at a time (`substring(i, i + 2)` takes a single character when the
string has odd length), parse each piece as hexadecimal, and push the
two's-complement signed byte value. -/
def hexStringToBytes : List Char → List JSNum
  | [] => []
  | [c] => [decodeHexPair [c]]
  | c₁ :: c₂ :: rest => decodeHexPair [c₁, c₂] :: hexStringToBytes rest

/-- Embedding of CryptoJS `Crypto.enc.Hex.parse`: decode a hexadecimal string
into its byte sequence, two characters per byte (unsigned; a non-hexadecimal
pair would poison the word array, modelled as `nan`).  Every call site in
`sendCode` passes an even-length hexadecimal string. -/
def hexParse : List Char → List JSNum
  | [] => []
  | [c] =>
    [match jsParseIntHex [c] with
     | none => JSNum.nan
     | some b => JSNum.num (b : Int)]
  | c₁ :: c₂ :: rest =>
    (match jsParseIntHex [c₁, c₂] with
     | none => JSNum.nan
     | some b => JSNum.num (b : Int)) :: hexParse rest

/-- The certificate fields `sendCode` reads from `tls.TLSSocket.getCertificate`
and `getPeerCertificate`: the RSA modulus and exponent as hexadecimal strings
(the exponent carries a `0x` prefix, which the code strips with `slice(2)`). -/
structure TLSCert where
  modulus : List Char
  exponent : List Char
deriving DecidableEq, Repr

/-- An outbound pairing frame, tracked at the level of which builder of the
pairing codec produced it (`createPairingRequest`, `createPairingOption`,
`createPairingConfiguration`, `createPairingSecret`); the codec builders
themselves are embedded separately below. -/
inductive PairingOutbound where
  | request (serviceName : String) (clientName : Option String)
  | option
  | configuration
  | secret (bytes : List JSNum)
deriving DecidableEq, Repr

/-- Whether `sendCode` returned a boolean or threw. -/
inductive SendCodeResult where
  | thrown (msg : String)
  | returned (ok : Bool)
deriving DecidableEq, Repr

/-- The externally visible side effects of one `sendCode` call: the frames
written to the socket and whether the socket was destroyed with an error. -/
structure SendCodeEffects where
  writes : List PairingOutbound
  destroyedWith : Option String
deriving DecidableEq, Repr

/-- Value of `pairing.PairingMessage.Status.STATUS_OK` from the pairing
protobuf schema (the schema file itself ships alongside the codec; the value
is also pinned by the repository's codec tests).  Only (in)equality with this
value matters to the session logic. -/
def statusOK : Nat := 200

/-- The byte sequence `sendCode` feeds to SHA-256: the concatenation of the
five `sha256.update(Crypto.enc.Hex.parse(...))` calls — client modulus,
`'0' + clientExponent.slice(2)`, server modulus, `'0' + serverExponent.slice(2)`,
`code.slice(2)` — incremental hashing of the parts being the hash of their
concatenation. -/
def sendCodeDigestInput (cc sc : TLSCert) (code : List Char) : List JSNum :=
  hexParse cc.modulus ++ hexParse ('0' :: cc.exponent.drop 2)
    ++ hexParse sc.modulus ++ hexParse ('0' :: sc.exponent.drop 2)
    ++ hexParse (code.drop 2)

/-- Embedding of `PairingManager.sendCode(code)`.  SHA-256 itself is external
(CryptoJS); it enters as the parameter `sha256Hex`, mapping the hashed byte
sequence to the digest's hexadecimal string (`hash.toString()`).  The client
and server certificates are `none` when the socket has none.  Following the
source: decode the code into signed bytes, throw `"No Certificate"` if either
certificate is missing, hash the five hex-parsed parts, decode the digest into
signed bytes, and compare the first signed bytes with strict equality
(`check !== code_bytes[0]`): on mismatch destroy the socket with `"Bad Code"`
and return `false`; on match write exactly one `PairingSecret(hash_array)`
frame and return `true`. -/
def sendCode (sha256Hex : List JSNum → List Char)
    (clientCert serverCert : Option TLSCert) (code : List Char) :
    SendCodeResult × SendCodeEffects :=
  let code_bytes := hexStringToBytes code
  match clientCert, serverCert with
  | some cc, some sc =>
    let hash_array := hexStringToBytes (sha256Hex (sendCodeDigestInput cc sc code))
    let check := hash_array.headD .undef
    if jsStrictEq check (code_bytes.headD .undef) = false then
      (.returned false, ⟨[], some "Bad Code"⟩)
    else
      (.returned true, ⟨[.secret hash_array], none⟩)
  | _, _ => (.thrown "No Certificate", ⟨[], none⟩)

/-- A decoded pairing message as the session's data handler sees it: its
status code and the truthiness of each variant field the handler inspects
(`pairingRequestAck`, `pairingOption`, `pairingConfigurationAck`,
`pairingSecretAck`); a variant field is `true` exactly when that variant is
populated in the decoded frame. -/
structure PairingMessageD where
  status : Nat
  pairingRequestAck : Bool
  pairingOption : Bool
  pairingConfigurationAck : Bool
  pairingSecretAck : Bool
deriving DecidableEq, Repr

/-- Node `Buffer.readInt8` of a byte value: bytes above 127 read as negative
two's-complement values. -/
def readInt8 (b : Nat) : Int :=
  if b % 256 > 127 then (b % 256 : Int) - 256 else (b % 256 : Int)

/-- The data handler's framing test
`chunks.length > 0 && chunks.readInt8(0) === chunks.length - 1`. -/
def pairingFramed (bs : List Nat) : Prop :=
  0 < bs.length ∧ readInt8 (bs.headD 0) = (bs.length : Int) - 1

instance (bs : List Nat) : Decidable (pairingFramed bs) := by
  unfold pairingFramed; infer_instance

/-- Observable state of one pairing session: the receive buffer
(`this.chunks`, bytes 0..255), the outbound frames written in order, how often
the `'secret'` notification was emitted, how many frames were parsed, whether
and how the socket was destroyed (`some (some s)`: destroyed with an error
whose message is the non-OK status `s`; `some none`: destroyed cleanly), and
how the `start()` promise settled (`some true`: resolved `true` after a clean
close; `some false`: rejected after an error close). -/
structure PairingSessionState where
  chunks : List Nat
  writes : List PairingOutbound
  secretEmits : Nat
  parses : Nat
  destroyedWith : Option (Option Nat)
  settled : Option Bool
deriving DecidableEq, Repr

/-- Session state right after `tls.connect`: empty receive buffer, nothing
written, nothing emitted, socket alive, promise pending. -/
def pairingInit : PairingSessionState := ⟨[], [], 0, 0, none, none⟩

/-- The socket events that drive the pairing session. -/
inductive PairingEvent where
  | secureConnect
  | data (bytes : List Nat)

/-- The message dispatch inside the data handler of `PairingManager.start`:
non-OK status destroys the socket with that status as the error (the close
event then rejects the promise); otherwise the first populated variant in
source order decides the action — `pairingRequestAck` writes the pairing
option, `pairingOption` writes the pairing configuration,
`pairingConfigurationAck` emits `'secret'`, `pairingSecretAck` destroys the
socket cleanly (the close event then resolves the promise), and anything else
only logs. -/
def pairingDispatch (m : PairingMessageD) (st : PairingSessionState) :
    PairingSessionState :=
  if m.status ≠ statusOK then
    { st with destroyedWith := some (some m.status), settled := some false }
  else if m.pairingRequestAck then { st with writes := st.writes ++ [.option] }
  else if m.pairingOption then { st with writes := st.writes ++ [.configuration] }
  else if m.pairingConfigurationAck then { st with secretEmits := st.secretEmits + 1 }
  else if m.pairingSecretAck then { st with destroyedWith := some none, settled := some true }
  else st

/-- One step of the pairing session's event handling, from
`PairingManager.start`.  `decode` is the external protobuf decoder
(`pairingMessageManager.parse`); `serviceName` and `model` are the values the
pairing request is built from.  A destroyed socket emits no further events.
On `secureConnect` the session writes the pairing request.  On `data` it
appends the bytes to the receive buffer; when the framing test holds it parses
exactly one frame, dispatches it, and resets the buffer to empty, otherwise it
keeps accumulating. -/
def pairingStep (decode : List Nat → PairingMessageD) (serviceName : String)
    (model : Option String) (st : PairingSessionState) :
    PairingEvent → PairingSessionState
  | .secureConnect =>
    if st.destroyedWith.isSome then st
    else { st with writes := st.writes ++ [.request serviceName model] }
  | .data bytes =>
    if st.destroyedWith.isSome then st
    else if pairingFramed (st.chunks ++ bytes) then
      { pairingDispatch (decode (st.chunks ++ bytes))
          { st with parses := st.parses + 1 } with
        chunks := [] }
    else { st with chunks := st.chunks ++ bytes }

/-- A whole pairing session run: fold the event handler over the socket's
event sequence starting from the fresh-connection state. -/
def pairingRun (decode : List Nat → PairingMessageD) (serviceName : String)
    (model : Option String) (evs : List PairingEvent) : PairingSessionState :=
  evs.foldl (pairingStep decode serviceName model) pairingInit

/-- A dynamically-typed JavaScript value as protobuf schema validation sees a
payload field: absent (`undefined`), a string, or a number. -/
inductive JSVal where
  | undef
  | str (s : String)
  | intval (n : Int)
deriving DecidableEq, Repr

/-- View an optional string (such as the codec's lazily resolved device model)
as the JavaScript value actually placed in a payload: `undefined` when not yet
resolved. -/
def optStr : Option String → JSVal
  | none => .undef
  | some s => .str s

/-- Modelled from the spec: protobufjs schema validation of one optional
string-typed field (the `.proto` schema files `pairingmessage.proto` and
`remotemessage.proto` are repository assets outside the provided sources).
Per the spec, builders must "validate the payload against the schema" while
absent device-metadata fields are "left absent rather than failing": a field
that is present must be a string, and an absent (`undefined`) field passes. -/
def verifyStringField (name : String) (v : JSVal) : Option String :=
  match v with
  | .undef => none
  | .str _ => none
  | .intval _ => some (name ++ ": string expected")

namespace PairingMessageManager

/-- The pairing codec's mutable device-metadata fields, filled in
asynchronously by `system().then(...)` after construction; `none` while the
resolution has not completed. -/
structure State where
  manufacturer : Option String
  model : Option String
deriving DecidableEq, Repr

/-- Embedding of `PairingMessageManager.create(payload)`: run schema
validation (`this.PairingMessage.verify`), throw the error message if it is
truthy (protobufjs returns `null` on success and a non-empty string on
failure; the empty string would be falsy and is kept faithful here), otherwise
return the length-delimited encoding
(`this.PairingMessage.encodeDelimited(message).finish()`).  Validation and
encoding are the external protobufjs primitives, passed in as `verify` and
`enc`. -/
def create {α β : Type} (verify : α → Option String) (enc : α → β)
    (payload : α) : Except String β :=
  match verify payload with
  | some errMsg => if errMsg = "" then .ok (enc payload) else .error errMsg
  | none => .ok (enc payload)

/-- The payload built by `createPairingRequest`: service name, the codec's
device model as `clientName` (possibly still unresolved), `STATUS_OK` and
protocol version 2. -/
structure PairingRequestPayload where
  serviceName : JSVal
  clientName : JSVal
  status : Nat
  protocolVersion : Nat
deriving DecidableEq, Repr

/-- Modelled from the spec: schema validation of a `pairingRequest` payload —
the two string-typed fields are checked with `verifyStringField`; the status
and protocol-version fields are integral by construction. -/
def verifyPairingRequest (p : PairingRequestPayload) : Option String :=
  (verifyStringField "serviceName" p.serviceName).orElse
    (fun _ => verifyStringField "clientName" p.clientName)

/-- Embedding of `PairingMessageManager.createPairingRequest(service_name)`:
build the pairing-request payload with `clientName := this.model` and run it
through `create`.  The encoding step is modelled as the identity on the
payload, so the result exposes exactly which fields the encoded message
carries. -/
def createPairingRequest (st : State) (service_name : String) :
    Except String PairingRequestPayload :=
  create verifyPairingRequest (fun p => p)
    { serviceName := .str service_name, clientName := optStr st.model,
      status := statusOK, protocolVersion := 2 }

end PairingMessageManager

namespace RemoteMessageManager

/-- The remote codec's mutable device-metadata fields, filled in
asynchronously by `system().then(...)` after construction; `none` while the
resolution has not completed. -/
structure State where
  manufacturer : Option String
  model : Option String
deriving DecidableEq, Repr

/-- Embedding of `RemoteMessageManager.create(payload)`: identical control
flow to the pairing codec's `create` — validate, throw a truthy error message,
otherwise return the length-delimited encoding.  (The source additionally
writes `console.debug` traces, suppressed for ping responses; logging has no
effect on the result and is omitted.) -/
def create {α β : Type} (verify : α → Option String) (enc : α → β)
    (payload : α) : Except String β :=
  match verify payload with
  | some errMsg => if errMsg = "" then .ok (enc payload) else .error errMsg
  | none => .ok (enc payload)

/-- The `deviceInfo` sub-payload of `createRemoteConfigure`. -/
structure DeviceInfo where
  model : JSVal
  vendor : JSVal
  unknown1 : Nat
  unknown2 : String
  packageName : String
  appVersion : String
deriving DecidableEq, Repr

/-- The payload built by `createRemoteConfigure`. -/
structure RemoteConfigurePayload where
  code1 : Nat
  deviceInfo : DeviceInfo
deriving DecidableEq, Repr

/-- Modelled from the spec: schema validation of a `remoteConfigure` payload —
the two dynamically-typed string fields (`model`, `vendor`) are checked with
`verifyStringField`; the remaining fields are of the declared types by
construction. -/
def verifyRemoteConfigure (p : RemoteConfigurePayload) : Option String :=
  (verifyStringField "model" p.deviceInfo.model).orElse
    (fun _ => verifyStringField "vendor" p.deviceInfo.vendor)

/-- Embedding of
`RemoteMessageManager.createRemoteConfigure(code1, model, vendor, unknown1, unknown2)`:
the five parameters appear in the source's signature but are never read — the
payload is built from the literal constants `622`, `1`, `"1"`,
`"androitv-remote"`, `"1.0.0"` and the codec's own `this.model` /
`this.manufacturer`.  The parameters are kept (at arbitrary types) to mirror
the signature. -/
def createRemoteConfigure {α β γ δ ε : Type} (st : State)
    (code1 : α) (model : β) (vendor : γ) (unknown1 : δ) (unknown2 : ε) :
    Except String RemoteConfigurePayload :=
  create verifyRemoteConfigure (fun p => p)
    { code1 := 622,
      deviceInfo :=
        { model := optStr st.model, vendor := optStr st.manufacturer,
          unknown1 := 1, unknown2 := "1",
          packageName := "androitv-remote", appVersion := "1.0.0" } }

end RemoteMessageManager

/-- A JavaScript `Date`, reduced to the components this code observes: the UTC
year and an abstract sub-year component (month, day and time of day).
`setUTCFullYear` only ever moves the date within the target year (a February
29 overflowing into a non-leap target year lands on March 1 of that same
year), so the sub-year component is modelled as unchanged. -/
structure JSDate where
  utcFullYear : Int
  subYear : Nat
deriving DecidableEq, Repr

/-- JavaScript `Date.prototype.setUTCFullYear(y)` under the model above. -/
def setUTCFullYear (d : JSDate) (y : Int) : JSDate := { d with utcFullYear := y }

/-- Lowercase hexadecimal digit character for a value below 16, as produced by
Node `Buffer.toString('hex')`. -/
def hexDigitChar (n : Nat) : Char :=
  if n < 10 then Char.ofNat (48 + n) else Char.ofNat (87 + n)

/-- One byte rendered as two lowercase hexadecimal characters. -/
def byteToHex (b : Nat) : List Char :=
  [hexDigitChar (b / 16 % 16), hexDigitChar (b % 16)]

/-- Node `Buffer.toString('hex')`: each byte becomes two lowercase
hexadecimal characters. -/
def bytesToHex : List Nat → List Char
  | [] => []
  | b :: rest => byteToHex b ++ bytesToHex rest

namespace CertificateGenerator

/-- The certificate fields `generateFull` sets on the node-forge certificate
object, recorded symbolically: key size of the fresh RSA pair installed as the
public key, serial number string, validity bounds, subject attribute list (in
the order given to `setSubject`; `name` and `shortName` attributes are both
recorded by their identifier), the message digest used by `cert.sign`, and
whether the signing key is the private half of the same fresh pair. -/
structure ForgeCert where
  publicKeyBits : Nat
  serialNumber : List Char
  notBefore : JSDate
  notAfter : JSDate
  subject : List (String × String)
  signedWith : String
  signedBySameKeyPair : Bool
deriving DecidableEq, Repr

/-- The value returned by `generateFull`: the certificate and the private key
of the same fresh pair (the source serializes both to PEM; serialization is
external to this model). -/
structure IdentityModel where
  cert : ForgeCert
  keyBits : Nat
deriving DecidableEq, Repr

/-- Embedding of `CertificateGenerator.generateFull(name, country, state,
locality, organisation, OU)` with its two effectful inputs made explicit: the
19 bytes drawn from `crypto.randomBytes(19)` and the current time
`new Date()`.  Key generation: `forge.pki.rsa.generateKeyPair(2048)`.  Serial
number: `'01' + randomBytes.toString('hex')`.  Validity: `notBefore` is the
current time; `notAfter` is the current time with the UTC year set to 2099.
Subject: the six inputs in source order.  Signature:
`cert.sign(keys.privateKey, forge.md.sha256.create())`. -/
def generateFull (randomBytes19 : List Nat) (now : JSDate)
    (name country state locality organisation OU : String) : IdentityModel :=
  { cert :=
      { publicKeyBits := 2048
        serialNumber := '0' :: '1' :: bytesToHex randomBytes19
        notBefore := now
        notAfter := setUTCFullYear now 2099
        subject := [("commonName", name), ("countryName", country),
                    ("ST", state), ("localityName", locality),
                    ("organizationName", organisation), ("OU", OU)]
        signedWith := "sha256"
        signedBySameKeyPair := true }
    keyBits := 2048 }

end CertificateGenerator

namespace RemoteManager

/-- Outcome of the reconnect attempt the Remote Channel schedules after a
retryable failure: it either settles or throws. -/
inductive RetryOutcome where
  | ok
  | threw (e : String)
deriving DecidableEq, Repr

/-- The externally visible outcome of handling one error-close of the remote
channel: how often `'unpaired'` was emitted, the delays (in milliseconds) of
the reconnect attempts scheduled, the failure code the original `start()`
promise rejects with, and the errors logged from a throwing reattempt. -/
structure CloseResult where
  unpairedEmits : Nat
  reconnectDelaysMs : List Nat
  rejectsWith : String
  loggedRetryErrors : List String
deriving DecidableEq, Repr

/-- Modelled from the spec: the Remote Channel's handling of a connection
close that follows a transport error (the `RemoteManager` implementation is
not among the provided sources; only its test suite is).  Per the spec's
reconnection policy: `ECONNRESET` is classified as unpaired — notify
`'unpaired'`, do not retry, report failure with that code; `EHOSTDOWN` — do
not retry, report failure with that code; any other code — wait 1000 ms, then
reattempt the connection once, and when the reattempt itself throws, log the
throw but still report the original failure code. -/
def onErrorClose (code : String) (retry : RetryOutcome) : CloseResult :=
  if code = "ECONNRESET" then ⟨1, [], code, []⟩
  else if code = "EHOSTDOWN" then ⟨0, [], code, []⟩
  else
    ⟨0, [1000], code,
      match retry with
      | .ok => []
      | .threw e => [e]⟩

end RemoteManager

theorem jsParseIntHex_pair (c₁ c₂ : Char) (a b : Nat)
    (h₁ : hexVal? c₁ = some a) (h₂ : hexVal? c₂ = some b) :
    jsParseIntHex [c₁, c₂] = some (16 * a + b) := by
  simp [jsParseIntHex, List.takeWhile, h₁, h₂]

theorem hexVal?_lt (c : Char) (a : Nat) (h : hexVal? c = some a) : a < 16 := by
  unfold hexVal? at h
  split at h <;> [skip; split at h] <;> [skip; skip; split at h] <;>
    simp only [Option.some.injEq, reduceCtorEq] at h <;> omega

theorem jsNegAdjust_eq (b : Nat) (h₁ : 127 < b) (h₂ : b ≤ 255) :
    jsNegAdjust b = (b : Int) - 256 := by
  unfold jsNegAdjust
  have hm : b % 2 ^ 32 = b := Nat.mod_eq_of_lt (by omega)
  rw [hm]
  have h3 : (2 ^ 32 - 1 - b) % 256 = 255 - b := by omega
  rw [h3, Int.ofNat_eq_coe]
  omega

theorem hexStringToBytes_pair (c₁ c₂ : Char) (a b : Nat) (rest : List Char)
    (h₁ : hexVal? c₁ = some a) (h₂ : hexVal? c₂ = some b) :
    hexStringToBytes (c₁ :: c₂ :: rest)
      = JSNum.num (if 16 * a + b ≤ 127 then ((16 * a + b : Nat) : Int)
                   else ((16 * a + b : Nat) : Int) - 256)
        :: hexStringToBytes rest := by
  have ha : a < 16 := hexVal?_lt c₁ a h₁
  have hb : b < 16 := hexVal?_lt c₂ b h₂
  simp only [hexStringToBytes, decodeHexPair, jsParseIntHex_pair c₁ c₂ a b h₁ h₂]
  by_cases hc : 16 * a + b ≤ 127
  · rw [if_neg (by omega), if_pos hc]
  · rw [if_pos (by omega), if_neg hc, jsNegAdjust_eq _ (by omega) (by omega)]

/-- Claim C5: for every string of hexadecimal digit pairs, `hexStringToBytes`
decodes each two-character pair to its two's-complement signed byte value —
pairs with value at most 127 map to themselves, pairs with value greater than
127 map to the value minus 256; in particular `"FF"` decodes to `[-1]`, `"7F"`
to `[127]` and `"80"` to `[-128]`. -/
theorem hexStringToBytes_twos_complement (c₁ c₂ : Char) (a b : Nat)
    (rest : List Char) (h₁ : hexVal? c₁ = some a) (h₂ : hexVal? c₂ = some b) :
    (hexStringToBytes (c₁ :: c₂ :: rest)
      = JSNum.num (if 16 * a + b ≤ 127 then ((16 * a + b : Nat) : Int)
                   else ((16 * a + b : Nat) : Int) - 256)
        :: hexStringToBytes rest)
    ∧ hexStringToBytes ['F', 'F'] = [JSNum.num (-1)]
    ∧ hexStringToBytes ['7', 'F'] = [JSNum.num 127]
    ∧ hexStringToBytes ['8', '0'] = [JSNum.num (-128)] :=
  ⟨hexStringToBytes_pair c₁ c₂ a b rest h₁ h₂, by decide, by decide, by decide⟩

/-- Witness for claim C5 at the concrete pair `"F0"` followed by `"AB"`. -/
theorem hexStringToBytes_twos_complement_witness :
    (hexStringToBytes ['F', '0', 'A', 'B']
      = JSNum.num (if 16 * 15 + 0 ≤ 127 then ((16 * 15 + 0 : Nat) : Int)
                   else ((16 * 15 + 0 : Nat) : Int) - 256)
        :: hexStringToBytes ['A', 'B'])
    ∧ hexStringToBytes ['F', 'F'] = [JSNum.num (-1)]
    ∧ hexStringToBytes ['7', 'F'] = [JSNum.num 127]
    ∧ hexStringToBytes ['8', '0'] = [JSNum.num (-128)] :=
  hexStringToBytes_twos_complement 'F' '0' 15 0 ['A', 'B'] (by decide) (by decide)

/-- Claim C1: `sendCode` hashes the concatenation of the hex-parsed client
modulus, `'0'` plus the client exponent without its first two characters, the
server modulus, `'0'` plus the server exponent without its first two
characters, and the code without its first two characters; when the digest's
first signed byte strictly equals the code's first signed byte it writes
exactly one PairingSecret frame carrying the signed digest bytes and returns
`true`; when they differ it destroys the connection with `"Bad Code"` and
returns `false`; and when either certificate is absent it throws
`"No Certificate"` without writing or destroying. -/
theorem sendCode_checksum_spec (sha256Hex : List JSNum → List Char)
    (cc sc : TLSCert) (code : List Char) :
    (jsStrictEq
        ((hexStringToBytes (sha256Hex (sendCodeDigestInput cc sc code))).headD .undef)
        ((hexStringToBytes code).headD .undef) = true →
      sendCode sha256Hex (some cc) (some sc) code
        = (.returned true,
           ⟨[.secret (hexStringToBytes (sha256Hex (sendCodeDigestInput cc sc code)))],
            none⟩))
    ∧ (jsStrictEq
        ((hexStringToBytes (sha256Hex (sendCodeDigestInput cc sc code))).headD .undef)
        ((hexStringToBytes code).headD .undef) = false →
      sendCode sha256Hex (some cc) (some sc) code
        = (.returned false, ⟨[], some "Bad Code"⟩))
    ∧ sendCode sha256Hex none (some sc) code = (.thrown "No Certificate", ⟨[], none⟩)
    ∧ sendCode sha256Hex (some cc) none code = (.thrown "No Certificate", ⟨[], none⟩)
    ∧ sendCode sha256Hex none none code = (.thrown "No Certificate", ⟨[], none⟩) := by
  refine ⟨fun h => ?_, fun h => ?_, rfl, rfl, rfl⟩
  · simp only [sendCode, h, Bool.true_eq_false, if_false]
  · simp only [sendCode, h, if_true]

/-- Witness for claim C1: with a digest function returning `"00"` and the code
`"00"`, the first signed bytes agree and exactly one secret frame is written. -/
theorem sendCode_checksum_spec_witness :
    sendCode (fun _ => ['0', '0']) (some ⟨[], []⟩) (some ⟨[], []⟩) ['0', '0']
      = (.returned true, ⟨[.secret (hexStringToBytes ['0', '0'])], none⟩) :=
  (sendCode_checksum_spec (fun _ => ['0', '0']) ⟨[], []⟩ ⟨[], []⟩ ['0', '0']).1
    (by decide)

/-- Claim C7: for both codecs, the builder core first validates the payload
and throws the (truthy) validation message synchronously — returning no bytes
— and on successful validation returns the length-delimited encoded bytes. -/
theorem codec_create_validation {α β : Type}
    (verify : α → Option String) (enc : α → β) (p : α) (e : String) :
    (verify p = some e → e ≠ "" →
      PairingMessageManager.create verify enc p = .error e
      ∧ RemoteMessageManager.create verify enc p = .error e)
    ∧ (verify p = none →
      PairingMessageManager.create verify enc p = .ok (enc p)
      ∧ RemoteMessageManager.create verify enc p = .ok (enc p)) := by
  constructor
  · intro hv he
    unfold PairingMessageManager.create RemoteMessageManager.create
    rw [hv]
    simp [he]
  · intro hv
    unfold PairingMessageManager.create RemoteMessageManager.create
    rw [hv]
    exact ⟨rfl, rfl⟩

/-- Witness for claim C7: a failing validator makes both builders throw its
message. -/
theorem codec_create_validation_witness :
    PairingMessageManager.create (fun _ : Nat => some "bad payload") (fun n => n) 7
      = .error "bad payload"
    ∧ RemoteMessageManager.create (fun _ : Nat => some "bad payload") (fun n => n) 7
      = .error "bad payload" :=
  (codec_create_validation (fun _ : Nat => some "bad payload") (fun n => n) 7
    "bad payload").1 rfl (by decide)

/-- Claim C8: builders invoked while the asynchronously resolved device
metadata is still undefined succeed without throwing, and the built message
carries the metadata-derived fields as absent: `createPairingRequest` with an
unresolved model yields an OK result whose `clientName` is `undefined`, and
`createRemoteConfigure` with unresolved model and manufacturer yields an OK
result whose `deviceInfo.model` and `deviceInfo.vendor` are `undefined`. -/
theorem codec_builders_absent_metadata (service_name : String)
    (manu : Option String) {α β γ δ ε : Type}
    (a : α) (b : β) (c : γ) (d : δ) (e : ε) :
    PairingMessageManager.createPairingRequest ⟨manu, none⟩ service_name
      = .ok ⟨.str service_name, .undef, statusOK, 2⟩
    ∧ RemoteMessageManager.createRemoteConfigure ⟨none, none⟩ a b c d e
      = .ok ⟨622, ⟨.undef, .undef, 1, "1", "androitv-remote", "1.0.0"⟩⟩ :=
  ⟨rfl, rfl⟩

/-- Claim C10: `createRemoteConfigure` ignores all five of its parameters —
for every argument tuple the built RemoteConfigure message carries
`code1 = 622`, `packageName "androitv-remote"`, `appVersion "1.0.0"`,
`unknown1 = 1`, `unknown2 = "1"`, and the codec's own resolved model and
manufacturer, never the caller-supplied values. -/
theorem createRemoteConfigure_ignores_args
    {α β γ δ ε α' β' γ' δ' ε' : Type} (st : RemoteMessageManager.State)
    (a : α) (b : β) (c : γ) (d : δ) (e : ε)
    (a' : α') (b' : β') (c' : γ') (d' : δ') (e' : ε') :
    RemoteMessageManager.createRemoteConfigure st a b c d e
      = RemoteMessageManager.createRemoteConfigure st a' b' c' d' e'
    ∧ RemoteMessageManager.createRemoteConfigure st a b c d e
      = .ok ⟨622, ⟨optStr st.model, optStr st.manufacturer, 1, "1",
                   "androitv-remote", "1.0.0"⟩⟩ := by
  refine ⟨rfl, ?_⟩
  unfold RemoteMessageManager.createRemoteConfigure RemoteMessageManager.create
    RemoteMessageManager.verifyRemoteConfigure
  cases st.model <;> cases st.manufacturer <;> rfl

/-- Claim C2: the remote channel's close handling after a transport error —
`ECONNRESET` emits `unpaired` exactly once, schedules no reconnect and rejects
with the code; `EHOSTDOWN` schedules no reconnect and rejects with the code;
any other code (including `ECONNREFUSED`) schedules exactly one reconnect
after 1000 ms, logs a throwing reattempt, and still rejects with the original
code. -/
theorem remote_close_policy (code : String)
    (retry : RemoteManager.RetryOutcome) (e : String) :
    RemoteManager.onErrorClose "ECONNRESET" retry = ⟨1, [], "ECONNRESET", []⟩
    ∧ RemoteManager.onErrorClose "EHOSTDOWN" retry = ⟨0, [], "EHOSTDOWN", []⟩
    ∧ (code ≠ "ECONNRESET" → code ≠ "EHOSTDOWN" →
        RemoteManager.onErrorClose code retry
          = ⟨0, [1000], code,
             match retry with
             | .ok => []
             | .threw e' => [e']⟩)
    ∧ RemoteManager.onErrorClose "ECONNREFUSED" (.threw e)
      = ⟨0, [1000], "ECONNREFUSED", [e]⟩ := by
  refine ⟨rfl, ?_, fun h₁ h₂ => ?_, ?_⟩
  · unfold RemoteManager.onErrorClose
    rw [if_neg (by decide)]
    rfl
  · unfold RemoteManager.onErrorClose
    rw [if_neg h₁, if_neg h₂]
  · unfold RemoteManager.onErrorClose
    rw [if_neg (by decide), if_neg (by decide)]

/-- Witness for claim C2 at the concrete transport code `"EBAD"` whose
reattempt throws `"boom"`. -/
theorem remote_close_policy_witness :
    RemoteManager.onErrorClose "EBAD" (.threw "boom")
      = ⟨0, [1000], "EBAD", ["boom"]⟩ :=
  (remote_close_policy "EBAD" (.threw "boom") "x").2.2.1 (by decide) (by decide)

theorem bytesToHex_length (bs : List Nat) :
    (bytesToHex bs).length = 2 * bs.length := by
  induction bs with
  | nil => rfl
  | cons b rest ih =>
    simp only [bytesToHex, byteToHex, List.length_append, List.length_cons,
      List.length_nil, ih]
    omega

theorem hexVal?_hexDigitChar (n : Nat) (h : n < 16) :
    (hexVal? (hexDigitChar n)).isSome := by
  interval_cases n <;> decide

theorem bytesToHex_hex (bs : List Nat) :
    ∀ ch ∈ bytesToHex bs, (hexVal? ch).isSome := by
  induction bs with
  | nil => intro ch hch; simp [bytesToHex] at hch
  | cons b rest ih =>
    intro ch hch
    simp only [bytesToHex, byteToHex, List.cons_append, List.nil_append,
      List.mem_cons] at hch
    rcases hch with h | h | h
    · subst h; exact hexVal?_hexDigitChar _ (Nat.mod_lt _ (by norm_num))
    · subst h; exact hexVal?_hexDigitChar _ (Nat.mod_lt _ (by norm_num))
    · exact ih ch h

/-- Claim C9: `generateFull` builds its result from a fresh 2048-bit RSA key
pair; the serial number is `"01"` followed by exactly 38 hexadecimal
characters (the 19 random bytes in hex); validity runs from the generation
time to the same point of year 2099; the subject is the six inputs in order;
and the certificate is self-signed with SHA-256. -/
theorem generateFull_spec (rb : List Nat) (now : JSDate)
    (n c s l o u : String) (hlen : rb.length = 19) :
    (CertificateGenerator.generateFull rb now n c s l o u).keyBits = 2048
    ∧ (CertificateGenerator.generateFull rb now n c s l o u).cert.publicKeyBits
        = 2048
    ∧ (CertificateGenerator.generateFull rb now n c s l o u).cert.serialNumber
        = '0' :: '1' :: bytesToHex rb
    ∧ (bytesToHex rb).length = 38
    ∧ (∀ ch ∈ bytesToHex rb, (hexVal? ch).isSome)
    ∧ (CertificateGenerator.generateFull rb now n c s l o u).cert.notBefore = now
    ∧ (CertificateGenerator.generateFull rb now n c s l o u).cert.notAfter.utcFullYear
        = 2099
    ∧ (CertificateGenerator.generateFull rb now n c s l o u).cert.subject
        = [("commonName", n), ("countryName", c), ("ST", s), ("localityName", l),
           ("organizationName", o), ("OU", u)]
    ∧ (CertificateGenerator.generateFull rb now n c s l o u).cert.signedWith
        = "sha256"
    ∧ (CertificateGenerator.generateFull rb now n c s l o u).cert.signedBySameKeyPair
        = true := by
  refine ⟨rfl, rfl, rfl, ?_, bytesToHex_hex rb, rfl, rfl, rfl, rfl, rfl⟩
  rw [bytesToHex_length, hlen]

/-- Witness for claim C9 at 19 concrete random bytes and a concrete clock. -/
theorem generateFull_spec_witness :
    (CertificateGenerator.generateFull (List.replicate 19 171) ⟨2025, 7⟩
        "cn" "US" "CA" "MV" "org" "ou").keyBits = 2048
    ∧ (CertificateGenerator.generateFull (List.replicate 19 171) ⟨2025, 7⟩
        "cn" "US" "CA" "MV" "org" "ou").cert.publicKeyBits = 2048
    ∧ (CertificateGenerator.generateFull (List.replicate 19 171) ⟨2025, 7⟩
        "cn" "US" "CA" "MV" "org" "ou").cert.serialNumber
        = '0' :: '1' :: bytesToHex (List.replicate 19 171)
    ∧ (bytesToHex (List.replicate 19 171)).length = 38
    ∧ (∀ ch ∈ bytesToHex (List.replicate 19 171), (hexVal? ch).isSome)
    ∧ (CertificateGenerator.generateFull (List.replicate 19 171) ⟨2025, 7⟩
        "cn" "US" "CA" "MV" "org" "ou").cert.notBefore = ⟨2025, 7⟩
    ∧ (CertificateGenerator.generateFull (List.replicate 19 171) ⟨2025, 7⟩
        "cn" "US" "CA" "MV" "org" "ou").cert.notAfter.utcFullYear = 2099
    ∧ (CertificateGenerator.generateFull (List.replicate 19 171) ⟨2025, 7⟩
        "cn" "US" "CA" "MV" "org" "ou").cert.subject
        = [("commonName", "cn"), ("countryName", "US"), ("ST", "CA"),
           ("localityName", "MV"), ("organizationName", "org"), ("OU", "ou")]
    ∧ (CertificateGenerator.generateFull (List.replicate 19 171) ⟨2025, 7⟩
        "cn" "US" "CA" "MV" "org" "ou").cert.signedWith = "sha256"
    ∧ (CertificateGenerator.generateFull (List.replicate 19 171) ⟨2025, 7⟩
        "cn" "US" "CA" "MV" "org" "ou").cert.signedBySameKeyPair = true :=
  generateFull_spec (List.replicate 19 171) ⟨2025, 7⟩ "cn" "US" "CA" "MV" "org" "ou"
    (by decide)

theorem pairingDispatch_parses (m : PairingMessageD) (st : PairingSessionState) :
    (pairingDispatch m st).parses = st.parses := by
  unfold pairingDispatch
  repeat' split
  all_goals rfl

/-- Claim C4 (amended): a parse is attempted exactly when the accumulated
buffer's length minus one equals the first byte read as a signed
two's-complement byte (`readInt8`); each such event parses exactly one frame
and resets the buffer to empty, while any other data event only accumulates. -/
theorem pairing_framing_parse (decode : List Nat → PairingMessageD)
    (sn : String) (model : Option String) (st : PairingSessionState)
    (bytes : List Nat) (hnd : st.destroyedWith = none) :
    (pairingFramed (st.chunks ++ bytes) →
      (pairingStep decode sn model st (.data bytes)).parses = st.parses + 1
      ∧ (pairingStep decode sn model st (.data bytes)).chunks = [])
    ∧ (¬ pairingFramed (st.chunks ++ bytes) →
      (pairingStep decode sn model st (.data bytes)).parses = st.parses
      ∧ (pairingStep decode sn model st (.data bytes)).chunks
          = st.chunks ++ bytes) := by
  constructor
  · intro h
    simp only [pairingStep]
    rw [hnd, if_neg (by simp), if_pos h]
    exact ⟨pairingDispatch_parses _ _, rfl⟩
  · intro h
    simp only [pairingStep]
    rw [hnd, if_neg (by simp), if_neg h]
    exact ⟨rfl, rfl⟩

/-- Witness for claim C4's amended theorem at a concrete well-framed chunk. -/
theorem pairing_framing_parse_witness :
    pairingFramed (pairingInit.chunks ++ [1, 5])
    ∧ (pairingStep (fun _ => ⟨statusOK, false, false, false, false⟩) "svc" none
        pairingInit (.data [1, 5])).parses = pairingInit.parses + 1
    ∧ (pairingStep (fun _ => ⟨statusOK, false, false, false, false⟩) "svc" none
        pairingInit (.data [1, 5])).chunks = [] :=
  ⟨by decide,
    (pairing_framing_parse (fun _ => ⟨statusOK, false, false, false, false⟩)
      "svc" none pairingInit [1, 5] rfl).1 (by decide)⟩

set_option maxRecDepth 8192

/-- Counterexample to claim C4 as stated: reading the first byte's value as
the declared remaining-byte count, this 129-byte buffer (first byte `0x80`,
declared count 128, exactly 128 trailing bytes) should be parsed, yet the data
handler — which compares the buffer length against the signed `readInt8`
value, here −128 — attempts no parse and keeps the whole buffer. -/
theorem pairing_framing_unsigned_counterexample :
    ((128 :: List.replicate 128 0).headD 0
      = (128 :: List.replicate 128 0).length - 1)
    ∧ (pairingStep (fun _ => ⟨statusOK, false, false, false, false⟩) "svc" none
        pairingInit (.data (128 :: List.replicate 128 0))).parses = 0
    ∧ (pairingStep (fun _ => ⟨statusOK, false, false, false, false⟩) "svc" none
        pairingInit (.data (128 :: List.replicate 128 0))).chunks
        = 128 :: List.replicate 128 0 := by
  decide

/-- Claim C6: whenever a complete frame decodes with a non-OK status — from
any live session state, whatever variant is populated — the session destroys
the connection with that status as the error and writes no outbound frame in
response (writes, like the secret-emission count, stay exactly as they were). -/
theorem pairing_nonOK_status_destroys (decode : List Nat → PairingMessageD)
    (sn : String) (model : Option String) (st : PairingSessionState)
    (bytes : List Nat) (hnd : st.destroyedWith = none)
    (hfr : pairingFramed (st.chunks ++ bytes))
    (hstatus : (decode (st.chunks ++ bytes)).status ≠ statusOK) :
    pairingStep decode sn model st (.data bytes)
      = { st with
          chunks := []
          parses := st.parses + 1
          destroyedWith := some (some (decode (st.chunks ++ bytes)).status)
          settled := some false } := by
  simp only [pairingStep]
  rw [hnd, if_neg (by simp), if_pos hfr]
  unfold pairingDispatch
  rw [if_pos hstatus]

/-- Witness for claim C6 at a concrete rejected frame of status 400. -/
theorem pairing_nonOK_status_destroys_witness :
    pairingStep (fun _ => ⟨400, true, false, false, false⟩) "svc" none
      pairingInit (.data [1, 9])
      = ⟨[], [], 0, 1, some (some 400), some false⟩ :=
  pairing_nonOK_status_destroys (fun _ => ⟨400, true, false, false, false⟩)
    "svc" none pairingInit [1, 9] rfl (by decide) (by decide)

/-- Claim C3: a pairing session that securely connects and then receives, as
well-framed OK-status frames, the sequence requestAck, option,
configurationAck, secretAck writes exactly the three frames request, option,
configuration in that order, emits the secret notification exactly once,
destroys the connection cleanly on secretAck, and its `start()` promise
resolves successfully. -/
theorem pairing_happy_path (decode : List Nat → PairingMessageD)
    (sn : String) (model : Option String) (f₁ f₂ f₃ f₄ : List Nat)
    (hf₁ : pairingFramed f₁)
    (hd₁ : decode f₁ = ⟨statusOK, true, false, false, false⟩)
    (hf₂ : pairingFramed f₂)
    (hd₂ : decode f₂ = ⟨statusOK, false, true, false, false⟩)
    (hf₃ : pairingFramed f₃)
    (hd₃ : decode f₃ = ⟨statusOK, false, false, true, false⟩)
    (hf₄ : pairingFramed f₄)
    (hd₄ : decode f₄ = ⟨statusOK, false, false, false, true⟩) :
    pairingRun decode sn model
      [.secureConnect, .data f₁, .data f₂, .data f₃, .data f₄]
      = { chunks := [], writes := [.request sn model, .option, .configuration],
          secretEmits := 1, parses := 4, destroyedWith := some none,
          settled := some true } := by
  simp [pairingRun, List.foldl, pairingStep, pairingDispatch, pairingInit,
    hf₁, hf₂, hf₃, hf₄, hd₁, hd₂, hd₃, hd₄]

/-- Witness for claim C3 at four concrete two-byte frames and a concrete
decoder. -/
theorem pairing_happy_path_witness :
    pairingRun
      (fun bs =>
        if bs = [1, 10] then ⟨statusOK, true, false, false, false⟩
        else if bs = [1, 11] then ⟨statusOK, false, true, false, false⟩
        else if bs = [1, 12] then ⟨statusOK, false, false, true, false⟩
        else ⟨statusOK, false, false, false, true⟩)
      "svc" (some "model")
      [.secureConnect, .data [1, 10], .data [1, 11], .data [1, 12], .data [1, 13]]
      = { chunks := [], writes := [.request "svc" (some "model"), .option,
                                   .configuration],
          secretEmits := 1, parses := 4, destroyedWith := some none,
          settled := some true } :=
  pairing_happy_path
    (fun bs =>
      if bs = [1, 10] then ⟨statusOK, true, false, false, false⟩
      else if bs = [1, 11] then ⟨statusOK, false, true, false, false⟩
      else if bs = [1, 12] then ⟨statusOK, false, false, true, false⟩
      else ⟨statusOK, false, false, false, true⟩)
    "svc" (some "model") [1, 10] [1, 11] [1, 12] [1, 13]
    (by decide) (by decide) (by decide) (by decide)
    (by decide) (by decide) (by decide) (by decide)

end AndroidTVRemote
